import Mathlib

/-!
Shallow embedding of the DS3231 real-time-clock character driver
(src/ds3231.c) and proofs about its codec, validator and protocol layer.

Modelling conventions:
* machine bytes are `Nat` values, with `% 256` applied exactly where the C
  code stores into a `u8`;
* C `int`/`s32` values are `Int`, with explicit conversions (`u8ofInt`,
  `% 4294967296` for the one `unsigned int` conversion) where the code casts;
* the I2C transport is a register file `Nat → Int` (a negative value models
  `i2c_smbus_read_byte_data` failing with that error code) together with a
  per-register write result (negative means the write attempt fails);
* every transport access and every mutex operation is recorded in an event
  trace, so lock-extent and "no I/O happened" properties are statable;
* the user-space buffer handed to `write` is a byte list; indexing it is
  bounds-checked, and an out-of-bounds access (the C code reading past the
  end of its `char date_str[count]` array) surfaces as `Except.error .oob`.
-/

/-- Linux `bcd2bin` (include/linux/bcd.h): `(x & 0x0f) + (x >> 4) * 10`. -/
def bcd2bin (x : Nat) : Nat := (x &&& 0x0f) + (x >>> 4) * 10

/-- Linux `bin2bcd` (include/linux/bcd.h): `((x / 10) << 4) + x % 10`. -/
def bin2bcd (x : Nat) : Nat := ((x / 10) <<< 4) + x % 10

/-- C conversion of a (possibly negative) `int` to `u8`: value mod 256. -/
def u8ofInt (x : Int) : Nat := (x % 256).toNat

/-- C `struct rtc_time` (the fields the driver uses; `tm_wday`, `tm_yday`,
`tm_isdst` are carried but never read by the driver logic). -/
structure RtcTime where
  tm_sec : Int
  tm_min : Int
  tm_hour : Int
  tm_mday : Int
  tm_mon : Int
  tm_year : Int
  tm_wday : Int
  tm_yday : Int
  tm_isdst : Int
deriving DecidableEq, Repr

/-- Observable events of a driver operation: mutex lock/unlock and
per-byte transport accesses. -/
inductive Event where
  | lock : Event
  | unlock : Event
  | readReg : Nat → Event
  | writeReg : Nat → Nat → Event
deriving DecidableEq, Repr

/-- The I2C bus: a register file (negative entry = read of that register
fails with that error code) and a per-register write outcome (negative =
`i2c_smbus_write_byte_data` fails with that code). -/
structure I2CBus where
  readv : Nat → Int
  writeRes : Nat → Int

/-- Write one byte into the register file. -/
def I2CBus.store (bus : I2CBus) (reg val : Nat) : I2CBus :=
  { bus with readv := fun r => if r = reg then (val : Int) else bus.readv r }

/-- Register offsets from the C `#define`s. -/
def DS3231_REG_SECONDS : Nat := 0x00
def DS3231_REG_MINUTES : Nat := 0x01
def DS3231_REG_HOURS : Nat := 0x02
def DS3231_REG_DAY : Nat := 0x03
def DS3231_REG_DATE : Nat := 0x04
def DS3231_REG_MONTH : Nat := 0x05
def DS3231_REG_YEAR : Nat := 0x06

/-- Model of `ds3231_read_block_data`: read `len` consecutive registers starting at
`reg`; fail with the first negative read result, otherwise return the bytes
(stored as `u8`, i.e. mod 256).  The trace lists each attempted byte read. -/
def ds3231_read_block_data (bus : I2CBus) (reg : Nat) : Nat → Except Int (List Nat) × List Event
  | 0 => (Except.ok [], [])
  | n + 1 =>
    let data := bus.readv reg
    if data < 0 then (Except.error data, [Event.readReg reg])
    else
      let rest := ds3231_read_block_data bus (reg + 1) n
      match rest.1 with
      | Except.error e => (Except.error e, Event.readReg reg :: rest.2)
      | Except.ok bs => (Except.ok ((data % 256).toNat :: bs), Event.readReg reg :: rest.2)

/-- Model of `ds3231_write_block_data`: write the bytes to consecutive registers;
stop with the error code of the first failing byte write (earlier bytes
stay written).  The trace lists each attempted byte write. -/
def ds3231_write_block_data (bus : I2CBus) (reg : Nat) : List Nat → Int × I2CBus × List Event
  | [] => (0, bus, [])
  | b :: bs =>
    let err := bus.writeRes reg
    if err < 0 then (err, bus, [Event.writeReg reg b])
    else
      let bus' := bus.store reg b
      let rest := ds3231_write_block_data bus' (reg + 1) bs
      (rest.1, rest.2.1, Event.writeReg reg b :: rest.2.2)

/-- Register-block decoding, the pure part of `ds3231_read_date`
(src/ds3231.c lines 106-139).  `date` is the caller's (possibly
uninitialized) `struct rtc_time`; the C code mutates it field by field, so
on the century-bit error path only `tm_mday` has been assigned.  The
century-bit error is returned as C `EINVAL = 22`, deliberately positive,
exactly as in the source. -/
def ds3231_decode (regs : List Nat) (date : RtcTime) : Int × RtcTime :=
  let r := fun i => regs.getD i 0
  let date := { date with tm_mday := (bcd2bin (r DS3231_REG_DATE) : Int) }
  if r DS3231_REG_MONTH &&& 0x80 ≠ 0 then
    (22, date)
  else
    let date := { date with tm_mon := (bcd2bin (r DS3231_REG_MONTH) : Int) - 1 }
    let date := { date with tm_year := (bcd2bin (r DS3231_REG_YEAR) : Int) + 100 }
    let hreg := r DS3231_REG_HOURS
    let hp :=
      if hreg &&& 0x40 ≠ 0 then
        let h1 := hreg &&& 0xbf
        if h1 &&& 0x20 ≠ 0 then (h1 &&& 0xdf, (12 : Nat)) else (h1, 0)
      else (hreg, 0)
    let date := { date with tm_hour := (bcd2bin hp.1 + hp.2 : Int) }
    let date := { date with tm_min := (bcd2bin (r DS3231_REG_MINUTES) : Int) }
    let date := { date with tm_sec := (bcd2bin (r DS3231_REG_SECONDS) : Int) }
    (0, date)

/-- Register-block encoding, the pure part of `ds3231_write_date`
(src/ds3231.c lines 159-200): build the 7-byte block from the candidate
date and the previously read block `regs0` (whose hour-format bit and
weekday byte are preserved).  Each store into the `u8` array is `% 256`. -/
def ds3231_encode (regs0 : List Nat) (date : RtcTime) : List Nat :=
  let r := fun i => regs0.getD i 0
  let dateReg := bin2bcd (u8ofInt date.tm_mday &&& 0x3f) % 256
  let m1 := r DS3231_REG_MONTH &&& 0x60
  let m2 := (m1 ||| bin2bcd (u8ofInt (date.tm_mon + 1) &&& 0x1f)) % 256
  let m3 := if date.tm_year > 199 then (m2 ||| 0x80) % 256 else m2
  let yearReg := bin2bcd (u8ofInt (date.tm_year.tmod 100) &&& 0xff) % 256
  let h0 := r DS3231_REG_HOURS
  let hourReg :=
    if h0 &&& 0x40 ≠ 0 then
      let hp := if date.tm_hour ≥ 12 then ((h0 ||| 0x20) % 256, date.tm_hour - 12)
                else (h0 &&& 0xdf, date.tm_hour)
      ((hp.1 &&& 0xe0) ||| (bin2bcd (u8ofInt hp.2 &&& 0x1f))) % 256
    else
      ((h0 &&& 0xc0) ||| (bin2bcd (u8ofInt date.tm_hour &&& 0x3f))) % 256
  let minReg := bin2bcd (u8ofInt date.tm_min) % 256
  let secReg := bin2bcd (u8ofInt date.tm_sec) % 256
  [secReg, minReg, hourReg, r DS3231_REG_DAY, dateReg, m3, yearReg]

/-- Model of `ds3231_read_date`: lock, read the 7-byte block, unlock, decode.
Returns (result, rtc_time as left by the function, event trace). -/
def ds3231_read_date (bus : I2CBus) (date : RtcTime) : Int × RtcTime × List Event :=
  let rb := ds3231_read_block_data bus DS3231_REG_SECONDS 7
  let tr := Event.lock :: rb.2 ++ [Event.unlock]
  match rb.1 with
  | Except.error e => (e, date, tr)
  | Except.ok regs =>
    let d := ds3231_decode regs date
    (d.1, d.2, tr)

/-- Model of `ds3231_write_date`: lock, read the current block, unlock; encode; lock,
write the block, unlock.  Faithful to the source bug at line 203: the result
of `ds3231_write_block_data` is not assigned to `ret`, so `ret` still holds
the (non-negative) result of the earlier successful block read and the
function returns 0 even when the transport write failed. -/
def ds3231_write_date (bus : I2CBus) (date : RtcTime) : Int × I2CBus × List Event :=
  let rb := ds3231_read_block_data bus DS3231_REG_SECONDS 7
  let tr1 := Event.lock :: rb.2 ++ [Event.unlock]
  match rb.1 with
  | Except.error e => (e, bus, tr1)
  | Except.ok regs0 =>
    let ret : Int := 7
    let regs := ds3231_encode regs0 date
    let wb := ds3231_write_block_data bus DS3231_REG_SECONDS regs
    let tr := tr1 ++ Event.lock :: wb.2.2 ++ [Event.unlock]
    if ret < 0 then (ret, wb.2.1, tr) else (0, wb.2.1, tr)

/-- Model of `ds3231_check_date` (src/ds3231.c lines 216-280).  `curr_year` is the
C `unsigned int date->tm_year + 1900` (conversion to `unsigned int` is the
value mod 2^32).  The C function is declared `u32` and returns `-EINVAL`
through that type; the callers assign the result back to a signed `s32`,
so the observable result is `0` or `-22`, which is what we model. -/
def ds3231_check_date (date : RtcTime) : Int :=
  if date.tm_sec < 0 ∨ date.tm_sec > 59 then -22
  else if date.tm_min < 0 ∨ date.tm_min > 59 then -22
  else if date.tm_hour < 0 ∨ date.tm_hour > 23 then -22
  else if date.tm_year < 100 ∨ date.tm_year > 299 then -22
  else if date.tm_mon = 0 ∨ date.tm_mon = 2 ∨ date.tm_mon = 4 ∨ date.tm_mon = 6 ∨
          date.tm_mon = 7 ∨ date.tm_mon = 9 ∨ date.tm_mon = 11 then
    if date.tm_mday < 1 ∨ date.tm_mday > 31 then -22 else 0
  else if date.tm_mon = 3 ∨ date.tm_mon = 5 ∨ date.tm_mon = 8 ∨ date.tm_mon = 10 then
    if date.tm_mday < 1 ∨ date.tm_mday > 30 then -22 else 0
  else if date.tm_mon = 1 then
    if (((date.tm_year + 1900) % 4294967296).toNat % 4 = 0 ∧
        ((date.tm_year + 1900) % 4294967296).toNat % 100 ≠ 0) ∨
       ((date.tm_year + 1900) % 4294967296).toNat % 400 = 0 then
      if date.tm_mday < 1 ∨ date.tm_mday > 29 then -22 else 0
    else
      if date.tm_mday < 1 ∨ date.tm_mday > 28 then -22 else 0
  else -22

/-- Decimal digit expansion helper (most significant first), structurally
recursive on a fuel that is always sufficient (`n + 1`). -/
def decDigitsGo : Nat → Nat → List Nat
  | 0, _ => []
  | fuel + 1, n => if n < 10 then [48 + n] else decDigitsGo fuel (n / 10) ++ [48 + n % 10]

/-- ASCII decimal digits of a natural number (as printf renders it). -/
def decDigits (n : Nat) : List Nat := decDigitsGo (n + 1) n

/-- printf `%0wd`: zero-padded to width `w`, the sign (for negative values)
printed before the padding, exactly as C printf does. -/
def fmtPad0 (w : Nat) (v : Int) : List Nat :=
  if v < 0 then
    let ds := decDigits (-v).toNat
    45 :: (List.replicate (w - 1 - ds.length) 48 ++ ds)
  else
    let ds := decDigits v.toNat
    List.replicate (w - ds.length) 48 ++ ds

/-- The `scnprintf` call of `ds3231_dev_read`: format
`"%02d.%02d.%04d %02d:%02d:%02d\n"` applied to
`(tm_mday, tm_mon + 1, tm_year + 1900, tm_hour, tm_min, tm_sec)` as ASCII
bytes.  `scnprintf` writes into a 64-byte buffer, so at most 63 characters
survive (the formatted dates at hand are far shorter). -/
def ds3231_format_date (d : RtcTime) : List Nat :=
  (fmtPad0 2 d.tm_mday ++ [46] ++ fmtPad0 2 (d.tm_mon + 1) ++ [46] ++
   fmtPad0 4 (d.tm_year + 1900) ++ [32] ++ fmtPad0 2 d.tm_hour ++ [58] ++
   fmtPad0 2 d.tm_min ++ [58] ++ fmtPad0 2 d.tm_sec ++ [10]).take 63

/-- Result of one `read(2)` call on the device file. -/
structure ReadResult where
  ret : Int
  out : List Nat
  offset : Int
  trace : List Event

/-- Model of `ds3231_dev_read` (src/ds3231.c lines 311-346).  `d0` models the
uninitialized `struct rtc_time date` on the stack; `count` is the user
buffer size and `offset` the per-open-file `loff_t *offset`.  Note the
source resets `*offset` to 0 when it finds it nonzero, and its error check
on `ds3231_read_date` is `< 0`, which the positive century-bit error code
22 passes. -/
def ds3231_dev_read (bus : I2CBus) (d0 : RtcTime) (count : Nat) (offset : Int) : ReadResult :=
  if offset ≠ 0 then
    { ret := 0, out := [], offset := 0, trace := [] }
  else
    let rd := ds3231_read_date bus d0
    if rd.1 < 0 then
      { ret := -5, out := [], offset := offset, trace := rd.2.2 }
    else
      let s := ds3231_format_date rd.2.1
      let written := s.length
      let written := if written > count then count else written
      { ret := (written : Int), out := s.take written, offset := 1, trace := rd.2.2 }

/-- C `isspace` for the scanf model. -/
def isWsByte (c : Nat) : Bool := c = 32 ∨ c = 9 ∨ c = 10 ∨ c = 11 ∨ c = 12 ∨ c = 13

/-- ASCII decimal digit test. -/
def isDigitByte (c : Nat) : Bool := 48 ≤ c ∧ c ≤ 57

/-- Drop leading whitespace bytes. -/
def skipWs : List Nat → List Nat
  | [] => []
  | c :: cs => if isWsByte c then skipWs cs else c :: cs

/-- Take at most `w` leading decimal digits, returning them and the rest. -/
def takeDigitsGo (w : Nat) : List Nat → List Nat × List Nat
  | [] => ([], [])
  | c :: cs =>
    if w = 0 then ([], c :: cs)
    else if isDigitByte c then
      let r := takeDigitsGo (w - 1) cs
      (c :: r.1, r.2)
    else ([], c :: cs)

/-- Value of a digit string. -/
def digitsVal (ds : List Nat) : Int :=
  ds.foldl (fun a c => a * 10 + ((c : Int) - 48)) 0

/-- One scanf `%d` conversion with field width `w`: skip whitespace, accept
an optional sign (counted against the width), then digits; `none` models a
conversion failure (scanf stops and leaves later arguments unassigned). -/
def scanInt (w : Nat) (s : List Nat) : Option (Int × List Nat) :=
  match skipWs s with
  | [] => none
  | c :: cs =>
    if c = 45 ∧ 1 ≤ w then
      let td := takeDigitsGo (w - 1) cs
      if td.1 = [] then none else some (-(digitsVal td.1), td.2)
    else if c = 43 ∧ 1 ≤ w then
      let td := takeDigitsGo (w - 1) cs
      if td.1 = [] then none else some (digitsVal td.1, td.2)
    else
      let td := takeDigitsGo w (c :: cs)
      if td.1 = [] then none else some (digitsVal td.1, td.2)

/-- The `sscanf(date_str, "%04d-%02d-%d %d:%d:%d", &tm_year, &tm_mon,
&tm_mday, &tm_hour, &tm_min, &tm_sec)` call of `ds3231_dev_write`.  `d0` is
the uninitialized stack `struct rtc_time`; fields beyond the first failing
conversion keep their `d0` garbage, as in C.  The `%d` width is bounded by
100, larger than any accepted 20-byte input. -/
def sscanf_ds3231 (s : List Nat) (d0 : RtcTime) : RtcTime :=
  match scanInt 4 s with
  | none => d0
  | some (y, s1) =>
    let d1 := { d0 with tm_year := y }
    match s1 with
    | [] => d1
    | c :: s2 =>
      if c = 45 then
        match scanInt 2 s2 with
        | none => d1
        | some (mo, s3) =>
          let d2 := { d1 with tm_mon := mo }
          match s3 with
          | [] => d2
          | c2 :: s4 =>
            if c2 = 45 then
              match scanInt 100 s4 with
              | none => d2
              | some (dd, s5) =>
                let d3 := { d2 with tm_mday := dd }
                match scanInt 100 (skipWs s5) with
                | none => d3
                | some (hh, s7) =>
                  let d4 := { d3 with tm_hour := hh }
                  match s7 with
                  | [] => d4
                  | c3 :: s8 =>
                    if c3 = 58 then
                      match scanInt 100 s8 with
                      | none => d4
                      | some (mi, s9) =>
                        let d5 := { d4 with tm_min := mi }
                        match s9 with
                        | [] => d5
                        | c4 :: s10 =>
                          if c4 = 58 then
                            match scanInt 100 s10 with
                            | none => d5
                            | some (ss, _) => { d5 with tm_sec := ss }
                          else d5
                    else d4
            else d2
      else d1

/-- Out-of-bounds access to the `char date_str[count]` VLA. -/
inductive MemErr where
  | oob : MemErr
deriving DecidableEq, Repr

/-- Bounds-checked buffer indexing: the C expression `date_str[i]` is only
defined when `i` is within the `count` bytes copied from the caller. -/
def bufIdx (l : List Nat) (i : Nat) : Except MemErr Nat :=
  match l[i]? with
  | some c => Except.ok c
  | none => Except.error MemErr.oob

/-- The delimiter-layout check of `ds3231_dev_write` (src/ds3231.c lines
370-371), including C's left-to-right short-circuit evaluation of the
conjunction: a position is only read if all earlier positions matched. -/
def ds3231_delim_check (s : List Nat) : Except MemErr Bool := do
  let c4 ← bufIdx s 4
  if c4 ≠ 45 then return false
  else
    let c7 ← bufIdx s 7
    if c7 ≠ 45 then return false
    else
      let c10 ← bufIdx s 10
      if c10 ≠ 32 then return false
      else
        let c13 ← bufIdx s 13
        if c13 ≠ 58 then return false
        else
          let c16 ← bufIdx s 16
          if c16 ≠ 58 then return false
          else return true

/-- The candidate `struct rtc_time` that `ds3231_dev_write` hands to the
validator: the `sscanf` result with the two in-place adjustments
`tm_mon--` and `tm_year -= 1900` (src/ds3231.c lines 377-383). -/
def ds3231_parsed_candidate (input : List Nat) (d0 : RtcTime) : RtcTime :=
  let p := sscanf_ds3231 input d0
  { p with tm_mon := p.tm_mon - 1, tm_year := p.tm_year - 1900 }

/-- Result of one `write(2)` call on the device file. -/
structure WriteResult where
  ret : Int
  bus : I2CBus
  trace : List Event

/-- Model of `ds3231_dev_write` (src/ds3231.c lines 352-399).  `input` is the byte
buffer copied from user space (`count = input.length`); `d0` the
uninitialized stack `struct rtc_time`.  `copy_from_user` is modelled as
succeeding.  C's `-EINVAL` is -22. -/
def ds3231_dev_write (bus : I2CBus) (d0 : RtcTime) (input : List Nat) :
    Except MemErr WriteResult :=
  let count := input.length
  if count > 20 then Except.ok { ret := -22, bus := bus, trace := [] }
  else
    match ds3231_delim_check input with
    | Except.error e => Except.error e
    | Except.ok ok =>
      if ¬ ok then Except.ok { ret := -22, bus := bus, trace := [] }
      else
        let date := ds3231_parsed_candidate input d0
        let ret := ds3231_check_date date
        if ret ≠ 0 then Except.ok { ret := ret, bus := bus, trace := [] }
        else
          let w := ds3231_write_date bus date
          if w.1 ≠ 0 then Except.ok { ret := w.1, bus := w.2.1, trace := w.2.2 }
          else Except.ok { ret := (count : Int), bus := w.2.1, trace := w.2.2 }

/-- Linux ioctl command numbers for the rtc interface (values of the
`_IOR('p', 0x09, struct rtc_time)` etc. macros; only their distinctness
matters here). -/
def RTC_RD_TIME : Nat := 0x80247009
def RTC_SET_TIME : Nat := 0x4024700a
def RTC_UIE_ON : Nat := 0x7003
def RTC_UIE_OFF : Nat := 0x7004

/-- Result of one `ioctl(2)` call on the device file. -/
structure IoctlResult where
  ret : Int
  bus : I2CBus
  outDate : Option RtcTime
  trace : List Event

/-- Model of `ds3231_dev_ioctl` (src/ds3231.c lines 405-458).  `arg` is the
`struct rtc_time` the user passes for `RTC_SET_TIME` (copy_from_user and
copy_to_user are modelled as succeeding).  For `RTC_RD_TIME` the stack
struct is `memset` to zero before decoding. -/
def ds3231_dev_ioctl (bus : I2CBus) (cmd : Nat) (arg : RtcTime) : IoctlResult :=
  if cmd = RTC_RD_TIME then
    let date0 : RtcTime := ⟨0, 0, 0, 0, 0, 0, 0, 0, 0⟩
    let rd := ds3231_read_date bus date0
    if rd.1 < 0 then { ret := -5, bus := bus, outDate := none, trace := rd.2.2 }
    else { ret := 0, bus := bus, outDate := some rd.2.1, trace := rd.2.2 }
  else if cmd = RTC_SET_TIME then
    let ret := ds3231_check_date arg
    if ret ≠ 0 then { ret := ret, bus := bus, outDate := none, trace := [] }
    else
      let w := ds3231_write_date bus arg
      if w.1 ≠ 0 then { ret := w.1, bus := w.2.1, outDate := none, trace := w.2.2 }
      else { ret := 0, bus := w.2.1, outDate := none, trace := w.2.2 }
  else if cmd = RTC_UIE_ON ∨ cmd = RTC_UIE_OFF then
    { ret := 0, bus := bus, outDate := none, trace := [] }
  else
    { ret := -1, bus := bus, outDate := none, trace := [] }

/-- Transport read event test. -/
def Event.isRead : Event → Bool
  | Event.readReg _ => true
  | _ => false

/-- Transport write event test. -/
def Event.isWrite : Event → Bool
  | Event.writeReg _ _ => true
  | _ => false

/-- Does the trace contain an unlock that is followed, later, by a
transport write? -/
def unlockThenWrite : List Event → Bool
  | [] => false
  | Event.unlock :: rest => rest.any Event.isWrite || unlockThenWrite rest
  | _ :: rest => unlockThenWrite rest

/-- Modelled from the spec: the exclusive lock is held continuously across
the read-modify-write — after the first transport read of the transaction,
no unlock happens before the transaction's last transport write. -/
def lockHeldAcrossRMW (tr : List Event) : Bool :=
  !(unlockThenWrite (tr.dropWhile (fun e => !e.isRead)))

/-- Modelled from the spec: days-in-month bound used to state the validator
claim (31 for months {1,3,5,7,8,10,12}, 30 for {4,6,9,11}, February 29 or
28 by the leap rule); any other month admits no day. -/
def spec_days_in_month (month year : Int) : Int :=
  if month = 1 ∨ month = 3 ∨ month = 5 ∨ month = 7 ∨ month = 8 ∨
     month = 10 ∨ month = 12 then 31
  else if month = 4 ∨ month = 6 ∨ month = 9 ∨ month = 11 then 30
  else if month = 2 then
    if (year % 4 = 0 ∧ year % 100 ≠ 0) ∨ year % 400 = 0 then 29 else 28
  else 0

/-- Characterization of `ds3231_check_date`: it returns 0 exactly on
calendar-consistent dates (shared helper for several claims). -/
theorem ds3231_check_date_spec (t : RtcTime) :
    ds3231_check_date t = 0 ↔
      (0 ≤ t.tm_sec ∧ t.tm_sec ≤ 59) ∧
      (0 ≤ t.tm_min ∧ t.tm_min ≤ 59) ∧
      (0 ≤ t.tm_hour ∧ t.tm_hour ≤ 23) ∧
      (2000 ≤ t.tm_year + 1900 ∧ t.tm_year + 1900 ≤ 2199) ∧
      (1 ≤ t.tm_mon + 1 ∧ t.tm_mon + 1 ≤ 12) ∧
      (1 ≤ t.tm_mday ∧
        t.tm_mday ≤ spec_days_in_month (t.tm_mon + 1) (t.tm_year + 1900)) := by
  unfold ds3231_check_date spec_days_in_month
  by_cases c1 : t.tm_sec < 0 ∨ t.tm_sec > 59
  · rw [if_pos c1]
    constructor
    · intro h; exact absurd h (by decide)
    · intro h; rcases h with ⟨h1, -⟩; omega
  rw [if_neg c1]
  by_cases c2 : t.tm_min < 0 ∨ t.tm_min > 59
  · rw [if_pos c2]
    constructor
    · intro h; exact absurd h (by decide)
    · intro h; rcases h with ⟨-, h2, -⟩; omega
  rw [if_neg c2]
  by_cases c3 : t.tm_hour < 0 ∨ t.tm_hour > 23
  · rw [if_pos c3]
    constructor
    · intro h; exact absurd h (by decide)
    · intro h; rcases h with ⟨-, -, h3, -⟩; omega
  rw [if_neg c3]
  by_cases c4 : t.tm_year < 100 ∨ t.tm_year > 299
  · rw [if_pos c4]
    constructor
    · intro h; exact absurd h (by decide)
    · intro h; rcases h with ⟨-, -, -, h4, -⟩; omega
  rw [if_neg c4]
  have hmod : ((t.tm_year + 1900) % 4294967296) = t.tm_year + 1900 := by omega
  rw [hmod]
  by_cases m31 : t.tm_mon = 0 ∨ t.tm_mon = 2 ∨ t.tm_mon = 4 ∨ t.tm_mon = 6 ∨
      t.tm_mon = 7 ∨ t.tm_mon = 9 ∨ t.tm_mon = 11
  · rw [if_pos m31, if_pos (show t.tm_mon + 1 = 1 ∨ t.tm_mon + 1 = 3 ∨ t.tm_mon + 1 = 5 ∨
      t.tm_mon + 1 = 7 ∨ t.tm_mon + 1 = 8 ∨ t.tm_mon + 1 = 10 ∨ t.tm_mon + 1 = 12 by omega)]
    by_cases d31 : t.tm_mday < 1 ∨ t.tm_mday > 31
    · rw [if_pos d31]; omega
    · rw [if_neg d31]; omega
  rw [if_neg m31, if_neg (show ¬(t.tm_mon + 1 = 1 ∨ t.tm_mon + 1 = 3 ∨ t.tm_mon + 1 = 5 ∨
      t.tm_mon + 1 = 7 ∨ t.tm_mon + 1 = 8 ∨ t.tm_mon + 1 = 10 ∨ t.tm_mon + 1 = 12) by omega)]
  by_cases m30 : t.tm_mon = 3 ∨ t.tm_mon = 5 ∨ t.tm_mon = 8 ∨ t.tm_mon = 10
  · rw [if_pos m30, if_pos (show t.tm_mon + 1 = 4 ∨ t.tm_mon + 1 = 6 ∨ t.tm_mon + 1 = 9 ∨
      t.tm_mon + 1 = 11 by omega)]
    by_cases d30 : t.tm_mday < 1 ∨ t.tm_mday > 30
    · rw [if_pos d30]; omega
    · rw [if_neg d30]; omega
  rw [if_neg m30, if_neg (show ¬(t.tm_mon + 1 = 4 ∨ t.tm_mon + 1 = 6 ∨ t.tm_mon + 1 = 9 ∨
      t.tm_mon + 1 = 11) by omega)]
  by_cases mFeb : t.tm_mon = 1
  · rw [if_pos mFeb, if_pos (show t.tm_mon + 1 = 2 by omega)]
    by_cases lp : ((t.tm_year + 1900).toNat % 4 = 0 ∧ (t.tm_year + 1900).toNat % 100 ≠ 0) ∨
        (t.tm_year + 1900).toNat % 400 = 0
    · rw [if_pos lp, if_pos (show ((t.tm_year + 1900) % 4 = 0 ∧ (t.tm_year + 1900) % 100 ≠ 0) ∨
        (t.tm_year + 1900) % 400 = 0 by omega)]
      by_cases d29 : t.tm_mday < 1 ∨ t.tm_mday > 29
      · rw [if_pos d29]; omega
      · rw [if_neg d29]; omega
    · rw [if_neg lp, if_neg (show ¬(((t.tm_year + 1900) % 4 = 0 ∧ (t.tm_year + 1900) % 100 ≠ 0) ∨
        (t.tm_year + 1900) % 400 = 0) by omega)]
      by_cases d28 : t.tm_mday < 1 ∨ t.tm_mday > 28
      · rw [if_pos d28]; omega
      · rw [if_neg d28]; omega
  rw [if_neg mFeb, if_neg (show ¬(t.tm_mon + 1 = 2) by omega)]
  omega

/-- C4: for every candidate `rtc_time`, the validator returns success iff
second, minute, hour are in range, the calendar year `tm_year + 1900` lies
in [2000, 2199], the month `tm_mon + 1` lies in [1, 12], and the day lies
between 1 and the days-in-month bound (31/30, February 29 in leap years by
the Gregorian rule, else 28); every out-of-range field is rejected. -/
theorem c4_validator_accepts_exactly_valid_dates (t : RtcTime) :
    ds3231_check_date t = 0 ↔
      (0 ≤ t.tm_sec ∧ t.tm_sec ≤ 59) ∧
      (0 ≤ t.tm_min ∧ t.tm_min ≤ 59) ∧
      (0 ≤ t.tm_hour ∧ t.tm_hour ≤ 23) ∧
      (2000 ≤ t.tm_year + 1900 ∧ t.tm_year + 1900 ≤ 2199) ∧
      (1 ≤ t.tm_mon + 1 ∧ t.tm_mon + 1 ≤ 12) ∧
      (1 ≤ t.tm_mday ∧
        t.tm_mday ≤ spec_days_in_month (t.tm_mon + 1) (t.tm_year + 1900)) :=
  ds3231_check_date_spec t

/-- A healthy register file: 2024-03-15 12:30:45 in 24-hour mode, weekday 2;
all writes succeed. -/
def regsR : List Nat := [0x45, 0x30, 0x12, 0x02, 0x15, 0x03, 0x24]

/-- Bus holding `regsR` with succeeding writes. -/
def busR : I2CBus := { readv := fun r => (regsR.getD r 0 : Int), writeRes := fun _ => 0 }

/-- Same registers, but every byte write fails with `-EIO`-style code -5. -/
def busFailW : I2CBus := { readv := fun r => (regsR.getD r 0 : Int), writeRes := fun _ => -5 }

/-- Register file whose month byte 0x81 has the century bit set. -/
def busCent : I2CBus :=
  { readv := fun r => (([0x00, 0x00, 0x00, 0x01, 0x01, 0x81, 0x24] : List Nat).getD r 0 : Int),
    writeRes := fun _ => 0 }

/-- Register file decoding to 2023-07-05 09:02:07 (claim C7's example). -/
def busFmt : I2CBus :=
  { readv := fun r => (([0x07, 0x02, 0x09, 0x01, 0x05, 0x07, 0x23] : List Nat).getD r 0 : Int),
    writeRes := fun _ => 0 }

/-- Arbitrary garbage for an uninitialized stack `struct rtc_time`. -/
def dJunk : RtcTime := ⟨7, 8, 9, 3, 4, 105, 0, 0, 0⟩

/-- A validated candidate: 2024-01-01 00:00:00 (tm form). -/
def dJan2024 : RtcTime := ⟨0, 0, 0, 1, 0, 124, 0, 0, 0⟩

/-- The all-zero `struct rtc_time` produced by `memset`. -/
def dZero : RtcTime := ⟨0, 0, 0, 0, 0, 0, 0, 0, 0⟩

/-- Observable return value of a `ds3231_dev_write` run (`none` = the run
aborted on an out-of-bounds buffer access). -/
def devWriteRet : Except MemErr WriteResult → Option Int
  | Except.ok w => some w.ret
  | Except.error _ => none

/-- ASCII bytes of `2024-03-15 12:30:45\n` (20 bytes). -/
def inpMar : List Nat := [50, 48, 50, 52, 45, 48, 51, 45, 49, 53, 32, 49, 50, 58, 51, 48, 58, 52, 53, 10]

/-- C1: with every transport byte write failing (-5), a validated set-time
still reports success: `ds3231_write_date` returns 0 although the block
write it issued failed with -5 (its result is dropped at line 203), and
both the text-write path and the `RTC_SET_TIME` ioctl report success to the
caller. -/
theorem c1_transport_write_failure_swallowed :
    busFailW.writeRes DS3231_REG_SECONDS = -5 ∧
    ds3231_check_date dJan2024 = 0 ∧
    (ds3231_write_block_data busFailW DS3231_REG_SECONDS
        (ds3231_encode regsR dJan2024)).1 = -5 ∧
    (ds3231_write_date busFailW dJan2024).1 = 0 ∧
    (ds3231_dev_ioctl busFailW RTC_SET_TIME dJan2024).ret = 0 ∧
    devWriteRet (ds3231_dev_write busFailW dJunk inpMar) = some 20 := by
  decide

/-- C2: on a block with the century bit set, `ds3231_read_date` returns the
positive error 22 (`EINVAL`, not `-EINVAL`); the `< 0` checks in the text
read and in `RTC_RD_TIME` therefore treat it as success: the text read
returns a 20-byte formatted string (built from the partially-garbage
struct) and the ioctl returns 0. -/
theorem c2_century_bit_error_not_surfaced :
    busCent.readv DS3231_REG_MONTH = 0x81 ∧
    (ds3231_read_date busCent dJunk).1 = 22 ∧
    (ds3231_dev_read busCent dJunk 64 0).ret = 20 ∧
    (ds3231_dev_read busCent dJunk 64 0).out =
      [48, 49, 46, 48, 53, 46, 50, 48, 48, 53, 32, 48, 57, 58, 48, 56, 58, 48, 55, 10] ∧
    (ds3231_dev_ioctl busCent RTC_RD_TIME dZero).ret = 0 := by
  decide

/-- C8 counterexample: within one open session (offset threaded from call
to call, starting at 0), the first read returns 20 bytes and sets the
offset to 1, the second read returns 0 (end-of-stream) but resets the
offset to 0, and the third read returns the 20 bytes again — data IS
returned a second time in the same session. -/
theorem c8_counterexample_third_read_returns_data :
    (ds3231_dev_read busR dJunk 64 0).ret = 20 ∧
    (ds3231_dev_read busR dJunk 64 0).offset = 1 ∧
    (ds3231_dev_read busR dJunk 64 1).ret = 0 ∧
    (ds3231_dev_read busR dJunk 64 1).offset = 0 ∧
    (ds3231_dev_read busR dJunk 64 0).ret ≠ 0 := by
  decide

/-- C10: a 3-byte write (`"abc"`) passes the `count > 20` length check, and
the delimiter-layout check then dereferences `date_str[4]`, beyond the
3-byte buffer: an out-of-bounds read, not an `-EINVAL` rejection. -/
theorem c10_short_input_reads_out_of_bounds :
    ds3231_dev_write busR dJunk [97, 98, 99] = Except.error MemErr.oob := rfl

/-- C6 counterexample: the 4-byte input `"2024"` has no correct delimiter
bytes at positions 4/7/10/13/16, yet it is not rejected with `-EINVAL` and
an untouched bus: the layout check reads past the end of the buffer. -/
theorem c6_counterexample_short_input_not_einval :
    ds3231_dev_write busR dJunk [50, 48, 50, 52] = Except.error MemErr.oob ∧
    ds3231_dev_write busR dJunk [50, 48, 50, 52] ≠
      Except.ok { ret := -22, bus := busR, trace := [] } :=
  ⟨rfl, fun h => Except.noConfusion h⟩

/-- The validator only ever returns 0 (success) or -22 (-EINVAL). -/
theorem check_date_zero_or_neg (t : RtcTime) :
    ds3231_check_date t = 0 ∨ ds3231_check_date t = -22 := by
  unfold ds3231_check_date
  split_ifs <;> norm_num

/-- C5: a set-time candidate that fails validation causes no transport I/O
at all.  Text write: whenever the input passes the length and delimiter
checks but its parsed candidate fails `ds3231_check_date`, `dev_write`
returns -EINVAL with an unchanged bus and an empty transport trace.
Structured set: `RTC_SET_TIME` with an invalid candidate likewise returns
-EINVAL, unchanged bus, empty trace. -/
theorem c5_validation_failure_means_no_transport_io :
    (∀ (bus : I2CBus) (d0 : RtcTime) (input : List Nat),
      input.length ≤ 20 →
      input[4]? = some 45 → input[7]? = some 45 → input[10]? = some 32 →
      input[13]? = some 58 → input[16]? = some 58 →
      ds3231_check_date (ds3231_parsed_candidate input d0) ≠ 0 →
      ds3231_dev_write bus d0 input =
        Except.ok { ret := -22, bus := bus, trace := [] }) ∧
    (∀ (bus : I2CBus) (arg : RtcTime),
      ds3231_check_date arg ≠ 0 →
      ds3231_dev_ioctl bus RTC_SET_TIME arg =
        { ret := -22, bus := bus, outDate := none, trace := [] }) := by
  constructor
  · intro bus d0 input h20 e4 e7 e10 e13 e16 hv
    have hret : ds3231_check_date (ds3231_parsed_candidate input d0) = -22 :=
      (check_date_zero_or_neg _).resolve_left hv
    have h20' : ¬ input.length > 20 := by omega
    have hd : ds3231_delim_check input = Except.ok true := by
      simp only [ds3231_delim_check, bufIdx, e4, e7, e10, e13, e16]
      rfl
    simp only [ds3231_dev_write, if_neg h20', hd, if_pos hv, hret]
    rfl
  · intro bus arg hv
    have hret : ds3231_check_date arg = -22 :=
      (check_date_zero_or_neg _).resolve_left hv
    have hne : ¬ (RTC_SET_TIME = RTC_RD_TIME) := by decide
    simp only [ds3231_dev_ioctl, if_neg hne, if_pos rfl, if_pos hv, hret]
    norm_num

/-- ASCII bytes of `2024-02-30 10:00:00\n` (a structurally well-formed text
write whose date fails validation: February 30th). -/
def inpFeb30 : List Nat := [50, 48, 50, 52, 45, 48, 50, 45, 51, 48, 32, 49, 48, 58, 48, 48, 58, 48, 48, 10]

/-- February 30th, 2024, 10:00:00 in `struct rtc_time` form. -/
def dFeb30 : RtcTime := ⟨0, 0, 10, 30, 1, 124, 0, 0, 0⟩

/-- Witness for C5 at the concrete invalid date February 30th, 2024. -/
theorem c5_validation_failure_means_no_transport_io_witness :
    (inpFeb30.length ≤ 20 ∧ inpFeb30[4]? = some 45 ∧ inpFeb30[7]? = some 45 ∧
     inpFeb30[10]? = some 32 ∧ inpFeb30[13]? = some 58 ∧ inpFeb30[16]? = some 58 ∧
     ds3231_check_date (ds3231_parsed_candidate inpFeb30 dJunk) ≠ 0 ∧
     ds3231_dev_write busR dJunk inpFeb30 =
       Except.ok { ret := -22, bus := busR, trace := [] }) ∧
    (ds3231_check_date dFeb30 ≠ 0 ∧
     ds3231_dev_ioctl busR RTC_SET_TIME dFeb30 =
       { ret := -22, bus := busR, outDate := none, trace := [] }) :=
  ⟨⟨by decide, by decide, by decide, by decide, by decide, by decide, by decide,
    c5_validation_failure_means_no_transport_io.1 busR dJunk inpFeb30 (by decide)
      (by decide) (by decide) (by decide) (by decide) (by decide) (by decide)⟩,
   ⟨by decide, c5_validation_failure_means_no_transport_io.2 busR dFeb30 (by decide)⟩⟩

/-- C8 (amended): the per-session read state alternates rather than
latching.  A read with the session offset nonzero returns 0 bytes
(end-of-stream) but also RESETS the offset to 0, so the next read delivers
data again; a successful first read (offset 0, transport and decode not
failing with a negative code) sets the offset to 1. -/
theorem c8_amended_read_state_alternates (bus : I2CBus) (d0 : RtcTime)
    (count : Nat) (off : Int) :
    (off ≠ 0 → ds3231_dev_read bus d0 count off =
      { ret := 0, out := [], offset := 0, trace := [] }) ∧
    (off = 0 → 0 ≤ (ds3231_read_date bus d0).1 →
      (ds3231_dev_read bus d0 count off).offset = 1) := by
  constructor
  · intro h
    unfold ds3231_dev_read
    rw [if_pos h]
  · intro h hr
    subst h
    simp only [ds3231_dev_read, ne_eq, not_true_eq_false, if_neg, reduceIte]
    rw [if_neg (show ¬(ds3231_read_date bus d0).1 < 0 from by omega)]

/-- Witness for C8's amended statement on the healthy bus. -/
theorem c8_amended_read_state_alternates_witness :
    (ds3231_dev_read busR dJunk 64 1 =
      { ret := 0, out := [], offset := 0, trace := [] }) ∧
    ((0 : Int) = 0 ∧ 0 ≤ (ds3231_read_date busR dJunk).1 ∧
      (ds3231_dev_read busR dJunk 64 0).offset = 1) :=
  ⟨(c8_amended_read_state_alternates busR dJunk 64 1).1 (by decide),
   ⟨rfl, by decide,
    (c8_amended_read_state_alternates busR dJunk 64 0).2 rfl (by decide)⟩⟩

/-- C6 (amended): text-write format handling.  (1) The 20-byte input
`2024-03-15 12:30:45\n` passes the structural checks and the candidate
handed to the validator and to `ds3231_write_date` is
2024-03-15 12:30:45 (tm form: year 124, month index 2), and the write
succeeds returning the byte count 20.  (2) Amended part: any input of
length 17..20 whose bytes at positions 4/7/10/13/16 are not exactly
`-`,`-`,space,`:`,`:` is rejected with -EINVAL, untouched bus and no
transport access.  (The claim's unrestricted version is false: for inputs
shorter than 17 bytes the check reads out of bounds, see the
counterexample.)  (3) Any input longer than 20 bytes is rejected with
-EINVAL, untouched bus and no transport access. -/
theorem c6_amended_text_write_format :
    (∀ d0 : RtcTime,
      ds3231_parsed_candidate inpMar d0 =
        { tm_sec := 45, tm_min := 30, tm_hour := 12, tm_mday := 15, tm_mon := 2,
          tm_year := 124, tm_wday := d0.tm_wday, tm_yday := d0.tm_yday,
          tm_isdst := d0.tm_isdst } ∧
      devWriteRet (ds3231_dev_write busR d0 inpMar) = some 20) ∧
    (∀ (bus : I2CBus) (d0 : RtcTime) (input : List Nat),
      input.length ≤ 20 → 17 ≤ input.length →
      ¬ (input.getD 4 0 = 45 ∧ input.getD 7 0 = 45 ∧ input.getD 10 0 = 32 ∧
         input.getD 13 0 = 58 ∧ input.getD 16 0 = 58) →
      ds3231_dev_write bus d0 input =
        Except.ok { ret := -22, bus := bus, trace := [] }) ∧
    (∀ (bus : I2CBus) (d0 : RtcTime) (input : List Nat),
      input.length > 20 →
      ds3231_dev_write bus d0 input =
        Except.ok { ret := -22, bus := bus, trace := [] }) := by
  refine ⟨fun d0 => ⟨rfl, rfl⟩, ?_, ?_⟩
  · intro bus d0 input h20 h17 hni
    have e4 : input[4]? = some (input.getD 4 0) := by
      rw [List.getElem?_eq_getElem (by omega), List.getD_eq_getElem input 0 (by omega)]
    have e7 : input[7]? = some (input.getD 7 0) := by
      rw [List.getElem?_eq_getElem (by omega), List.getD_eq_getElem input 0 (by omega)]
    have e10 : input[10]? = some (input.getD 10 0) := by
      rw [List.getElem?_eq_getElem (by omega), List.getD_eq_getElem input 0 (by omega)]
    have e13 : input[13]? = some (input.getD 13 0) := by
      rw [List.getElem?_eq_getElem (by omega), List.getD_eq_getElem input 0 (by omega)]
    have e16 : input[16]? = some (input.getD 16 0) := by
      rw [List.getElem?_eq_getElem (by omega), List.getD_eq_getElem input 0 (by omega)]
    have hd : ds3231_delim_check input = Except.ok false := by
      simp only [ds3231_delim_check, bufIdx, e4, e7, e10, e13, e16, bind, Except.bind, pure,
        Except.pure]
      by_cases b4 : input.getD 4 0 = 45
      · rw [if_neg (show ¬(input.getD 4 0 ≠ 45) from by omega)]
        by_cases b7 : input.getD 7 0 = 45
        · rw [if_neg (show ¬(input.getD 7 0 ≠ 45) from by omega)]
          by_cases b10 : input.getD 10 0 = 32
          · rw [if_neg (show ¬(input.getD 10 0 ≠ 32) from by omega)]
            by_cases b13 : input.getD 13 0 = 58
            · rw [if_neg (show ¬(input.getD 13 0 ≠ 58) from by omega)]
              by_cases b16 : input.getD 16 0 = 58
              · exact absurd ⟨b4, b7, b10, b13, b16⟩ hni
              · rw [if_pos (show input.getD 16 0 ≠ 58 from b16)]
            · rw [if_pos (show input.getD 13 0 ≠ 58 from b13)]
          · rw [if_pos (show input.getD 10 0 ≠ 32 from b10)]
        · rw [if_pos (show input.getD 7 0 ≠ 45 from b7)]
      · rw [if_pos (show input.getD 4 0 ≠ 45 from b4)]
    have h20' : ¬ input.length > 20 := by omega
    simp only [ds3231_dev_write, if_neg h20', hd]
    norm_num
  · intro bus d0 input h21
    unfold ds3231_dev_write
    rw [if_pos h21]

/-- ASCII bytes of `2024/03/15 12:30:45\n` (wrong delimiters). -/
def inpSlash : List Nat := [50, 48, 50, 52, 47, 48, 51, 47, 49, 53, 32, 49, 50, 58, 51, 48, 58, 52, 53, 10]

/-- ASCII bytes of a 21-byte over-long input. -/
def inpLong : List Nat := [50, 48, 50, 52, 45, 48, 51, 45, 49, 53, 32, 49, 50, 58, 51, 48, 58, 52, 53, 10, 10]

/-- Witness for C6's amended statement at the three concrete inputs. -/
theorem c6_amended_text_write_format_witness :
    (ds3231_parsed_candidate inpMar dJunk =
       { tm_sec := 45, tm_min := 30, tm_hour := 12, tm_mday := 15, tm_mon := 2,
         tm_year := 124, tm_wday := dJunk.tm_wday, tm_yday := dJunk.tm_yday,
         tm_isdst := dJunk.tm_isdst } ∧
     devWriteRet (ds3231_dev_write busR dJunk inpMar) = some 20) ∧
    (inpSlash.length ≤ 20 ∧ 17 ≤ inpSlash.length ∧
     ¬ (inpSlash.getD 4 0 = 45 ∧ inpSlash.getD 7 0 = 45 ∧ inpSlash.getD 10 0 = 32 ∧
        inpSlash.getD 13 0 = 58 ∧ inpSlash.getD 16 0 = 58) ∧
     ds3231_dev_write busR dJunk inpSlash =
       Except.ok { ret := -22, bus := busR, trace := [] }) ∧
    (inpLong.length > 20 ∧
     ds3231_dev_write busR dJunk inpLong =
       Except.ok { ret := -22, bus := busR, trace := [] }) :=
  ⟨c6_amended_text_write_format.1 dJunk,
   ⟨by decide, by decide, by decide,
    c6_amended_text_write_format.2.1 busR dJunk inpSlash (by decide) (by decide) (by decide)⟩,
   ⟨by decide,
    c6_amended_text_write_format.2.2 busR dJunk inpLong (by decide)⟩⟩

theorem fmt2_nat : ∀ n : Nat, n < 100 → fmtPad0 2 (n : Int) = [48 + n / 10, 48 + n % 10] := by
  decide

theorem decDigitsGo_eq (n : Nat) : ∀ f : Nat, 1 ≤ f → n < 10 ^ f →
    decDigitsGo f n = decDigits n := by
  induction n using Nat.strong_induction_on with
  | _ n ih =>
    intro f h1 h2
    match f, h1 with
    | f' + 1, _ =>
      by_cases hn : n < 10
      · show decDigitsGo (f' + 1) n = decDigitsGo (n + 1) n
        unfold decDigitsGo
        rw [if_pos hn, if_pos hn]
      · have h10 : 10 ^ (f' + 1) = 10 ^ f' * 10 := pow_succ 10 f'
        have hf' : 1 ≤ f' := by
          rcases Nat.eq_zero_or_pos f' with h | h
          · subst h; simp at h2; omega
          · exact h
        have hq : n / 10 < 10 ^ f' := (Nat.div_lt_iff_lt_mul (by norm_num)).mpr (by omega)
        have hqn : n / 10 < n := by omega
        have hpow : n < 10 ^ n := Nat.lt_pow_self (by norm_num) n
        show decDigitsGo (f' + 1) n = decDigitsGo (n + 1) n
        unfold decDigitsGo
        rw [if_neg hn, if_neg hn]
        rw [ih (n / 10) hqn f' hf' hq, ih (n / 10) hqn n (by omega) (by omega)]

theorem fmt4_digits (n : Nat) (h1 : 1000 ≤ n) (h2 : n ≤ 9999) :
    fmtPad0 4 (n : Int) =
      [48 + n / 1000, 48 + n / 100 % 10, 48 + n / 10 % 10, 48 + n % 10] := by
  have hds : decDigits n = decDigitsGo 4 n :=
    (decDigitsGo_eq n 4 (by norm_num) (by norm_num; omega)).symm
  have hgo : decDigitsGo 4 n =
      [48 + n / 1000, 48 + n / 100 % 10, 48 + n / 10 % 10, 48 + n % 10] := by
    unfold decDigitsGo
    rw [if_neg (show ¬ n < 10 from by omega)]
    unfold decDigitsGo
    rw [if_neg (show ¬ n / 10 < 10 from by omega)]
    unfold decDigitsGo
    rw [if_neg (show ¬ n / 10 / 10 < 10 from by omega)]
    unfold decDigitsGo
    rw [if_pos (show n / 10 / 10 / 10 < 10 from by omega)]
    simp only [List.cons_append, List.nil_append, List.cons.injEq, and_true]
    omega
  unfold fmtPad0
  rw [if_neg (show ¬ (n : Int) < 0 from by omega)]
  simp only [Int.toNat_ofNat]
  rw [hds, hgo]
  rfl

theorem fmt2_int (v : Int) (h0 : 0 ≤ v) (h1 : v ≤ 99) :
    fmtPad0 2 v = [48 + v.toNat / 10, 48 + v.toNat % 10] := by
  have hv : ((v.toNat : Int)) = v := Int.toNat_of_nonneg h0
  rw [← hv]
  exact fmt2_nat v.toNat (by omega)

theorem fmt4_int (v : Int) (h0 : 1000 ≤ v) (h1 : v ≤ 9999) :
    fmtPad0 4 v = [48 + v.toNat / 1000, 48 + v.toNat / 100 % 10,
      48 + v.toNat / 10 % 10, 48 + v.toNat % 10] := by
  have hv : ((v.toNat : Int)) = v := Int.toNat_of_nonneg (by omega)
  rw [← hv]
  exact fmt4_digits v.toNat (by omega) (by omega)

/-- Modelled from the spec: two zero-padded ASCII digits. -/
def spec_two_digits (n : Nat) : List Nat := [48 + n / 10, 48 + n % 10]

/-- Modelled from the spec: four zero-padded ASCII digits. -/
def spec_four_digits (n : Nat) : List Nat :=
  [48 + n / 1000, 48 + n / 100 % 10, 48 + n / 10 % 10, 48 + n % 10]

/-- Modelled from the spec: the exact `DD.MM.YYYY HH:MM:SS\n` byte string
for a calendar time. -/
def spec_text_read_bytes (d : RtcTime) : List Nat :=
  spec_two_digits d.tm_mday.toNat ++ [46] ++ spec_two_digits (d.tm_mon + 1).toNat ++ [46] ++
  spec_four_digits (d.tm_year + 1900).toNat ++ [32] ++ spec_two_digits d.tm_hour.toNat ++ [58] ++
  spec_two_digits d.tm_min.toNat ++ [58] ++ spec_two_digits d.tm_sec.toNat ++ [10]

/-- C7: whenever `getTime` decodes successfully and yields a CalendarTime
(fields within the data model's ranges: day 1-31, month 1-12, hour 0-23,
minute/second 0-59, four-digit year), the text read returns exactly the
20-byte string `DD.MM.YYYY HH:MM:SS\n` with zero-padded two-digit fields
and a four-digit year, and marks the session as read. -/
theorem c7_text_read_formats_exact_20_bytes (bus : I2CBus) (d0 d : RtcTime) (count : Nat) :
    20 ≤ count →
    (ds3231_read_date bus d0).1 = 0 →
    (ds3231_read_date bus d0).2.1 = d →
    0 ≤ d.tm_sec → d.tm_sec ≤ 59 →
    0 ≤ d.tm_min → d.tm_min ≤ 59 →
    0 ≤ d.tm_hour → d.tm_hour ≤ 23 →
    1 ≤ d.tm_mday → d.tm_mday ≤ 31 →
    1 ≤ d.tm_mon + 1 → d.tm_mon + 1 ≤ 12 →
    1000 ≤ d.tm_year + 1900 → d.tm_year + 1900 ≤ 9999 →
    (ds3231_dev_read bus d0 count 0).ret = 20 ∧
    (ds3231_dev_read bus d0 count 0).out = spec_text_read_bytes d ∧
    (spec_text_read_bytes d).length = 20 ∧
    (ds3231_dev_read bus d0 count 0).offset = 1 := by
  intro hc hr hd hs0 hs1 hm0 hm1 hh0 hh1 hd0 hd1 hmo0 hmo1 hy0 hy1
  have hfmt : ds3231_format_date d = spec_text_read_bytes d := by
    unfold ds3231_format_date spec_text_read_bytes spec_two_digits spec_four_digits
    rw [fmt2_int d.tm_mday (by omega) (by omega),
        fmt2_int (d.tm_mon + 1) (by omega) (by omega),
        fmt4_int (d.tm_year + 1900) (by omega) (by omega),
        fmt2_int d.tm_hour (by omega) (by omega),
        fmt2_int d.tm_min (by omega) (by omega),
        fmt2_int d.tm_sec (by omega) (by omega)]
    rfl
  have hlen : (spec_text_read_bytes d).length = 20 := by
    unfold spec_text_read_bytes spec_two_digits spec_four_digits
    rfl
  simp only [ds3231_dev_read, ne_eq, not_true_eq_false, if_neg, reduceIte]
  rw [if_neg (show ¬(ds3231_read_date bus d0).1 < 0 from by omega)]
  rw [hd, hfmt, hlen]
  rw [if_neg (show ¬ 20 > count from by omega)]
  refine ⟨rfl, ?_, hlen, rfl⟩
  rw [List.take_of_length_le (by rw [hlen])]

/-- The CalendarTime decoded from `busFmt`: 2023-07-05 09:02:07. -/
def dC7 : RtcTime := ⟨7, 2, 9, 5, 6, 123, 0, 0, 0⟩

/-- Witness for C7 at the claim's example 2023-07-05 09:02:07: the text
read returns exactly the bytes of `05.07.2023 09:02:07\n`. -/
theorem c7_text_read_formats_exact_20_bytes_witness :
    ((ds3231_read_date busFmt dJunk).1 = 0 ∧
     (ds3231_read_date busFmt dJunk).2.1 = dC7 ∧
     (ds3231_dev_read busFmt dJunk 64 0).ret = 20 ∧
     (ds3231_dev_read busFmt dJunk 64 0).out = spec_text_read_bytes dC7 ∧
     (spec_text_read_bytes dC7).length = 20 ∧
     (ds3231_dev_read busFmt dJunk 64 0).offset = 1) ∧
    (ds3231_dev_read busFmt dJunk 64 0).out =
      [48, 53, 46, 48, 55, 46, 50, 48, 50, 51, 32, 48, 57, 58, 48, 50, 58, 48, 55, 10] :=
  have h := c7_text_read_formats_exact_20_bytes busFmt dJunk dC7 64 (by decide) (by decide)
    (by decide) (by decide) (by decide) (by decide) (by decide) (by decide) (by decide)
    (by decide) (by decide) (by decide) (by decide) (by decide) (by decide)
  ⟨⟨by decide, by decide, h.1, h.2.1, h.2.2.1, h.2.2.2⟩, by decide⟩

theorem read_block_trace_reads (bus : I2CBus) : ∀ (n reg : Nat),
    ∀ e ∈ (ds3231_read_block_data bus reg n).2, e.isRead = true := by
  intro n
  induction n with
  | zero =>
    intro reg e he
    simp only [ds3231_read_block_data, List.not_mem_nil] at he
  | succ n ih =>
    intro reg e he
    rcases lt_or_ge (bus.readv reg) 0 with hc | hc
    · simp only [ds3231_read_block_data, if_pos hc, List.mem_singleton] at he
      subst he
      rfl
    · have hc' : ¬ bus.readv reg < 0 := by omega
      simp only [ds3231_read_block_data, if_neg hc'] at he
      rcases hrest : (ds3231_read_block_data bus (reg + 1) n).1 with e' | bs <;>
        rw [hrest] at he <;>
        simp only [List.mem_cons] at he <;>
        rcases he with he | he
      · subst he; rfl
      · exact ih (reg + 1) e he
      · subst he; rfl
      · exact ih (reg + 1) e he

theorem write_block_trace_writes : ∀ (l : List Nat) (bus : I2CBus) (reg : Nat),
    ∀ e ∈ (ds3231_write_block_data bus reg l).2.2, e.isWrite = true := by
  intro l
  induction l with
  | nil =>
    intro bus reg e he
    simp only [ds3231_write_block_data, List.not_mem_nil] at he
  | cons b bs ih =>
    intro bus reg e he
    rcases lt_or_ge (bus.writeRes reg) 0 with hc | hc
    · simp only [ds3231_write_block_data, if_pos hc, List.mem_singleton] at he
      subst he
      rfl
    · have hc' : ¬ bus.writeRes reg < 0 := by omega
      simp only [ds3231_write_block_data, if_neg hc', List.mem_cons] at he
      rcases he with he | he
      · subst he; rfl
      · exact ih (bus.store reg b) (reg + 1) e he

/-- C9 (amended): `ds3231_write_date` holds the lock for the read phase and
for the write phase separately: whenever the initial block read succeeds,
its trace is lock, transport reads, UNLOCK, lock, transport writes, unlock
— the mutex is released between the read and the write of the
read-modify-write, so the transaction is not one atomic critical section. -/
theorem c9_amended_lock_per_phase (bus : I2CBus) (date : RtcTime) (regs : List Nat)
    (h : (ds3231_read_block_data bus DS3231_REG_SECONDS 7).1 = Except.ok regs) :
    ∃ r w, (ds3231_write_date bus date).2.2 =
      Event.lock :: r ++ Event.unlock :: Event.lock :: w ++ [Event.unlock] ∧
      (∀ e ∈ r, e.isRead = true) ∧ (∀ e ∈ w, e.isWrite = true) := by
  refine ⟨(ds3231_read_block_data bus DS3231_REG_SECONDS 7).2,
          (ds3231_write_block_data bus DS3231_REG_SECONDS (ds3231_encode regs date)).2.2,
          ?_, read_block_trace_reads bus 7 DS3231_REG_SECONDS,
          write_block_trace_writes (ds3231_encode regs date) bus DS3231_REG_SECONDS⟩
  simp only [ds3231_write_date, h]
  norm_num

/-- C9 counterexample: on the healthy bus with candidate 2024-01-01
00:00:00, the trace of `ds3231_write_date` contains an unlock between the
transport reads and the transport writes — the spec-side predicate
`lockHeldAcrossRMW` (lock held continuously across the read-modify-write)
is false, as the explicit trace shows. -/
theorem c9_counterexample_lock_released_between_read_and_write :
    (ds3231_write_date busR dJan2024).2.2 =
      [Event.lock, Event.readReg 0, Event.readReg 1, Event.readReg 2, Event.readReg 3,
       Event.readReg 4, Event.readReg 5, Event.readReg 6, Event.unlock, Event.lock,
       Event.writeReg 0 0, Event.writeReg 1 0, Event.writeReg 2 0, Event.writeReg 3 2,
       Event.writeReg 4 1, Event.writeReg 5 1, Event.writeReg 6 36, Event.unlock] ∧
    lockHeldAcrossRMW (ds3231_write_date busR dJan2024).2.2 = false := by
  decide

/-- Witness for C9's amended statement on the healthy bus. -/
theorem c9_amended_lock_per_phase_witness :
    ((ds3231_read_block_data busR DS3231_REG_SECONDS 7).1 = Except.ok regsR) ∧
    (∃ r w, (ds3231_write_date busR dJan2024).2.2 =
      Event.lock :: r ++ Event.unlock :: Event.lock :: w ++ [Event.unlock] ∧
      (∀ e ∈ r, e.isRead = true) ∧ (∀ e ∈ w, e.isWrite = true)) :=
  ⟨rfl, c9_amended_lock_per_phase busR dJan2024 regsR rfl⟩

theorem spec_days_le_31 (m y : Int) : spec_days_in_month m y ≤ 31 := by
  unfold spec_days_in_month
  split_ifs <;> norm_num

/-- The `u8` conversion is the identity on in-range bytes. -/
theorem u8_cast : ∀ n : Nat, n < 256 → u8ofInt (n : Int) = n := by
  intro n h
  unfold u8ofInt
  omega

/-- BCD encoding of a two-digit value fits a byte and decodes back. -/
theorem bcd_roundtrip : ∀ n : Nat, n < 100 →
    bin2bcd n % 256 = bin2bcd n ∧ bcd2bin (bin2bcd n) = n := by decide

/-- Masking with 0x3f is the identity below 64. -/
theorem and63_id : ∀ n : Nat, n < 64 → n &&& 63 = n := by decide

/-- Masking with 0x1f is the identity below 32. -/
theorem and31_id : ∀ n : Nat, n < 32 → n &&& 31 = n := by decide

set_option maxRecDepth 8000 in
/-- Masking with 0xff is the identity below 256. -/
theorem and255_id : ∀ n : Nat, n < 256 → n &&& 255 = n := by decide

/-- A BCD month (at most 0x12) never has the century bit. -/
theorem bcd_month_no_bit7 : ∀ n : Nat, n < 13 → bin2bcd n &&& 128 = 0 := by decide

/-- A BCD 24-hour value (at most 0x23) never has the 12h mode bit. -/
theorem bcd_hour24_no_bit6 : ∀ n : Nat, n < 24 → bin2bcd n &&& 64 = 0 := by decide

set_option maxRecDepth 8000 in
/-- A byte with bits 7 and 6 clear is annihilated by the 0xc0 mask. -/
theorem and192_zero : ∀ n : Nat, n < 256 → n &&& 128 = 0 → n &&& 64 = 0 → n &&& 192 = 0 := by
  decide

set_option maxRecDepth 8000 in
/-- Setting nAM then masking with 0xe0 on a 12h-mode byte gives 0x60. -/
theorem hour12_pm_mask : ∀ n : Nat, n < 256 → n &&& 128 = 0 → n &&& 64 ≠ 0 →
    ((n ||| 32) % 256) &&& 224 = 96 := by decide

set_option maxRecDepth 8000 in
/-- Clearing nAM then masking with 0xe0 on a 12h-mode byte gives 0x40. -/
theorem hour12_am_mask : ∀ n : Nat, n < 256 → n &&& 128 = 0 → n &&& 64 ≠ 0 →
    (n &&& 223) &&& 224 = 64 := by decide

/-- Decoding facts for a PM-encoded hours byte `0x60 | bcd m`. -/
theorem hour12_pm_decode : ∀ m : Nat, m < 12 →
    ((96 ||| bin2bcd m) % 256 = 96 ||| bin2bcd m) ∧
    ((96 ||| bin2bcd m) &&& 128 = 0) ∧
    ((96 ||| bin2bcd m) &&& 64 ≠ 0) ∧
    (((96 ||| bin2bcd m) &&& 191) &&& 32 ≠ 0) ∧
    bcd2bin (((96 ||| bin2bcd m) &&& 191) &&& 223) = m := by decide

/-- Decoding facts for an AM-encoded hours byte `0x40 | bcd m`. -/
theorem hour12_am_decode : ∀ m : Nat, m < 12 →
    ((64 ||| bin2bcd m) % 256 = 64 ||| bin2bcd m) ∧
    ((64 ||| bin2bcd m) &&& 64 ≠ 0) ∧
    (((64 ||| bin2bcd m) &&& 191) &&& 32 = 0) ∧
    bcd2bin ((64 ||| bin2bcd m) &&& 191) = m := by decide

/-- Codec round-trip, 24-hour-mode existing block (helper for C3). -/
theorem ds3231_roundtrip_24h (t : RtcTime) (ex : List Nat) (d0 : RtcTime)
    (hv : ds3231_check_date t = 0) (hy : t.tm_year ≤ 199)
    (heh : ex.getD 2 0 < 256)
    (heh7 : ex.getD 2 0 &&& 128 = 0)
    (he5 : ex.getD 5 0 &&& 96 = 0)
    (hmode : ex.getD 2 0 &&& 64 = 0) :
    ds3231_decode (ds3231_encode ex t) d0 =
      (0, { d0 with tm_sec := t.tm_sec, tm_min := t.tm_min, tm_hour := t.tm_hour,
                    tm_mday := t.tm_mday, tm_mon := t.tm_mon, tm_year := t.tm_year }) := by
  obtain ⟨⟨hs0, hs1⟩, ⟨hmi0, hmi1⟩, ⟨hh0, hh1⟩, ⟨hy0, hy1⟩, ⟨hmo0, hmo1⟩, hd1, hdb⟩ :=
    (ds3231_check_date_spec t).mp hv
  have hd31 : t.tm_mday ≤ 31 := hdb.trans (spec_days_le_31 _ _)
  obtain ⟨S, hS⟩ : ∃ n : Nat, t.tm_sec = (n : Int) := ⟨t.tm_sec.toNat, by omega⟩
  obtain ⟨MI, hMI⟩ : ∃ n : Nat, t.tm_min = (n : Int) := ⟨t.tm_min.toNat, by omega⟩
  obtain ⟨H, hH⟩ : ∃ n : Nat, t.tm_hour = (n : Int) := ⟨t.tm_hour.toNat, by omega⟩
  obtain ⟨D, hD⟩ : ∃ n : Nat, t.tm_mday = (n : Int) := ⟨t.tm_mday.toNat, by omega⟩
  obtain ⟨MO, hMO⟩ : ∃ n : Nat, t.tm_mon = (n : Int) - 1 := ⟨(t.tm_mon + 1).toNat, by omega⟩
  obtain ⟨K, hK⟩ : ∃ n : Nat, t.tm_year = (n : Int) + 100 := ⟨(t.tm_year - 100).toNat, by omega⟩
  have hSb : S ≤ 59 := by omega
  have hMIb : MI ≤ 59 := by omega
  have hHb : H ≤ 23 := by omega
  have hDb : D ≤ 31 := by omega
  have hMOb : MO ≤ 12 := by omega
  have hKb : K ≤ 99 := by omega
  have hmode' : ¬(ex.getD 2 0 &&& 64 ≠ 0) := not_ne_iff.mpr hmode
  have henc : ds3231_encode ex t =
      [bin2bcd S, bin2bcd MI, bin2bcd H, ex.getD 3 0, bin2bcd D, bin2bcd MO, bin2bcd K] := by
    simp only [ds3231_encode, DS3231_REG_MONTH, DS3231_REG_HOURS, DS3231_REG_DAY]
    rw [hS, hMI, hH, hD, hMO, hK]
    rw [if_neg hmode']
    rw [if_neg (show ¬((K : Int) + 100 > 199) from by omega)]
    rw [show ((MO : Int) - 1 + 1) = (MO : Int) from by omega]
    rw [Int.tmod_eq_emod (by omega) (by omega)]
    rw [show ((K : Int) + 100) % 100 = (K : Int) from by omega]
    rw [u8_cast S (by omega), u8_cast MI (by omega), u8_cast H (by omega),
        u8_cast D (by omega), u8_cast MO (by omega), u8_cast K (by omega)]
    rw [and63_id H (by omega), and63_id D (by omega), and31_id MO (by omega),
        and255_id K (by omega)]
    rw [he5, and192_zero _ heh heh7 hmode]
    simp only [Nat.zero_or]
    rw [(bcd_roundtrip S (by omega)).1, (bcd_roundtrip MI (by omega)).1,
        (bcd_roundtrip H (by omega)).1, (bcd_roundtrip D (by omega)).1,
        (bcd_roundtrip MO (by omega)).1, (bcd_roundtrip K (by omega)).1]
  have g2 : ([bin2bcd S, bin2bcd MI, bin2bcd H, ex.getD 3 0, bin2bcd D, bin2bcd MO,
      bin2bcd K] : List Nat).getD 2 0 = bin2bcd H := rfl
  have g0 : ([bin2bcd S, bin2bcd MI, bin2bcd H, ex.getD 3 0, bin2bcd D, bin2bcd MO,
      bin2bcd K] : List Nat).getD 0 0 = bin2bcd S := rfl
  have g1 : ([bin2bcd S, bin2bcd MI, bin2bcd H, ex.getD 3 0, bin2bcd D, bin2bcd MO,
      bin2bcd K] : List Nat).getD 1 0 = bin2bcd MI := rfl
  have g4 : ([bin2bcd S, bin2bcd MI, bin2bcd H, ex.getD 3 0, bin2bcd D, bin2bcd MO,
      bin2bcd K] : List Nat).getD 4 0 = bin2bcd D := rfl
  have g5 : ([bin2bcd S, bin2bcd MI, bin2bcd H, ex.getD 3 0, bin2bcd D, bin2bcd MO,
      bin2bcd K] : List Nat).getD 5 0 = bin2bcd MO := rfl
  have g6 : ([bin2bcd S, bin2bcd MI, bin2bcd H, ex.getD 3 0, bin2bcd D, bin2bcd MO,
      bin2bcd K] : List Nat).getD 6 0 = bin2bcd K := rfl
  have hdec : ds3231_decode
      [bin2bcd S, bin2bcd MI, bin2bcd H, ex.getD 3 0, bin2bcd D, bin2bcd MO, bin2bcd K] d0 =
      (0, { d0 with tm_sec := (S : Int), tm_min := (MI : Int), tm_hour := (H : Int),
                    tm_mday := (D : Int), tm_mon := (MO : Int) - 1,
                    tm_year := (K : Int) + 100 }) := by
    simp only [ds3231_decode, DS3231_REG_SECONDS, DS3231_REG_MINUTES, DS3231_REG_HOURS,
               DS3231_REG_DATE, DS3231_REG_MONTH, DS3231_REG_YEAR]
    rw [g0, g1, g2, g4, g5, g6]
    rw [if_neg (show ¬(bin2bcd MO &&& 128 ≠ 0) from
          not_ne_iff.mpr (bcd_month_no_bit7 MO (by omega)))]
    rw [if_neg (show ¬(bin2bcd H &&& 64 ≠ 0) from
          not_ne_iff.mpr (bcd_hour24_no_bit6 H (by omega)))]
    rw [(bcd_roundtrip S (by omega)).2, (bcd_roundtrip MI (by omega)).2,
        (bcd_roundtrip H (by omega)).2, (bcd_roundtrip D (by omega)).2,
        (bcd_roundtrip MO (by omega)).2, (bcd_roundtrip K (by omega)).2]
    norm_num
  rw [henc, hdec, hS, hMI, hH, hD, hMO, hK]

/-- Codec round-trip of the hour, 12-hour-mode existing block (helper for C3). -/
theorem ds3231_roundtrip_12h (t : RtcTime) (ex : List Nat) (d0 : RtcTime)
    (hv : ds3231_check_date t = 0) (hy : t.tm_year ≤ 199)
    (heh : ex.getD 2 0 < 256)
    (heh7 : ex.getD 2 0 &&& 128 = 0)
    (he5 : ex.getD 5 0 &&& 96 = 0)
    (hmode : ex.getD 2 0 &&& 64 ≠ 0) :
    (ds3231_decode (ds3231_encode ex t) d0).1 = 0 ∧
    (ds3231_decode (ds3231_encode ex t) d0).2.tm_hour = t.tm_hour := by
  obtain ⟨⟨hs0, hs1⟩, ⟨hmi0, hmi1⟩, ⟨hh0, hh1⟩, ⟨hy0, hy1⟩, ⟨hmo0, hmo1⟩, hd1, hdb⟩ :=
    (ds3231_check_date_spec t).mp hv
  have hd31 : t.tm_mday ≤ 31 := hdb.trans (spec_days_le_31 _ _)
  obtain ⟨S, hS⟩ : ∃ n : Nat, t.tm_sec = (n : Int) := ⟨t.tm_sec.toNat, by omega⟩
  obtain ⟨MI, hMI⟩ : ∃ n : Nat, t.tm_min = (n : Int) := ⟨t.tm_min.toNat, by omega⟩
  obtain ⟨H, hH⟩ : ∃ n : Nat, t.tm_hour = (n : Int) := ⟨t.tm_hour.toNat, by omega⟩
  obtain ⟨D, hD⟩ : ∃ n : Nat, t.tm_mday = (n : Int) := ⟨t.tm_mday.toNat, by omega⟩
  obtain ⟨MO, hMO⟩ : ∃ n : Nat, t.tm_mon = (n : Int) - 1 := ⟨(t.tm_mon + 1).toNat, by omega⟩
  obtain ⟨K, hK⟩ : ∃ n : Nat, t.tm_year = (n : Int) + 100 := ⟨(t.tm_year - 100).toNat, by omega⟩
  have hSb : S ≤ 59 := by omega
  have hMIb : MI ≤ 59 := by omega
  have hHb : H ≤ 23 := by omega
  have hDb : D ≤ 31 := by omega
  have hMOb : MO ≤ 12 := by omega
  have hKb : K ≤ 99 := by omega
  by_cases hpm : 12 ≤ H
  · obtain ⟨H2, hH2e, hH2lt⟩ : ∃ m, H = m + 12 ∧ m < 12 := ⟨H - 12, by omega, by omega⟩
    subst hH2e
    have henc : ds3231_encode ex t =
        [bin2bcd S, bin2bcd MI, 96 ||| bin2bcd H2, ex.getD 3 0, bin2bcd D, bin2bcd MO,
         bin2bcd K] := by
      simp only [ds3231_encode, DS3231_REG_MONTH, DS3231_REG_HOURS, DS3231_REG_DAY]
      rw [hS, hMI, hH, hD, hMO, hK]
      rw [if_pos hmode]
      rw [if_pos (show ((H2 + 12 : Nat) : Int) ≥ 12 from by omega)]
      dsimp only
      rw [hour12_pm_mask _ heh heh7 hmode]
      rw [show ((H2 + 12 : Nat) : Int) - 12 = (H2 : Int) from by push_cast; ring]
      rw [u8_cast H2 (by omega), and31_id H2 (by omega)]
      rw [(hour12_pm_decode H2 hH2lt).1]
      rw [if_neg (show ¬((K : Int) + 100 > 199) from by omega)]
      rw [show ((MO : Int) - 1 + 1) = (MO : Int) from by omega]
      rw [Int.tmod_eq_emod (by omega) (by omega)]
      rw [show ((K : Int) + 100) % 100 = (K : Int) from by omega]
      rw [u8_cast S (by omega), u8_cast MI (by omega), u8_cast D (by omega),
          u8_cast MO (by omega), u8_cast K (by omega)]
      rw [and63_id D (by omega), and31_id MO (by omega), and255_id K (by omega)]
      rw [he5]
      simp only [Nat.zero_or]
      rw [(bcd_roundtrip S (by omega)).1, (bcd_roundtrip MI (by omega)).1,
          (bcd_roundtrip D (by omega)).1, (bcd_roundtrip MO (by omega)).1,
          (bcd_roundtrip K (by omega)).1]
    have g0 : ([bin2bcd S, bin2bcd MI, 96 ||| bin2bcd H2, ex.getD 3 0, bin2bcd D,
        bin2bcd MO, bin2bcd K] : List Nat).getD 0 0 = bin2bcd S := rfl
    have g1 : ([bin2bcd S, bin2bcd MI, 96 ||| bin2bcd H2, ex.getD 3 0, bin2bcd D,
        bin2bcd MO, bin2bcd K] : List Nat).getD 1 0 = bin2bcd MI := rfl
    have g2 : ([bin2bcd S, bin2bcd MI, 96 ||| bin2bcd H2, ex.getD 3 0, bin2bcd D,
        bin2bcd MO, bin2bcd K] : List Nat).getD 2 0 = 96 ||| bin2bcd H2 := rfl
    have g4 : ([bin2bcd S, bin2bcd MI, 96 ||| bin2bcd H2, ex.getD 3 0, bin2bcd D,
        bin2bcd MO, bin2bcd K] : List Nat).getD 4 0 = bin2bcd D := rfl
    have g5 : ([bin2bcd S, bin2bcd MI, 96 ||| bin2bcd H2, ex.getD 3 0, bin2bcd D,
        bin2bcd MO, bin2bcd K] : List Nat).getD 5 0 = bin2bcd MO := rfl
    have g6 : ([bin2bcd S, bin2bcd MI, 96 ||| bin2bcd H2, ex.getD 3 0, bin2bcd D,
        bin2bcd MO, bin2bcd K] : List Nat).getD 6 0 = bin2bcd K := rfl
    have hdec : ds3231_decode
        [bin2bcd S, bin2bcd MI, 96 ||| bin2bcd H2, ex.getD 3 0, bin2bcd D, bin2bcd MO,
         bin2bcd K] d0 =
        (0, { d0 with tm_sec := (S : Int), tm_min := (MI : Int),
                      tm_hour := ((H2 + 12 : Nat) : Int), tm_mday := (D : Int),
                      tm_mon := (MO : Int) - 1, tm_year := (K : Int) + 100 }) := by
      simp only [ds3231_decode, DS3231_REG_SECONDS, DS3231_REG_MINUTES, DS3231_REG_HOURS,
                 DS3231_REG_DATE, DS3231_REG_MONTH, DS3231_REG_YEAR]
      rw [g0, g1, g2, g4, g5, g6]
      rw [if_neg (show ¬(bin2bcd MO &&& 128 ≠ 0) from
            not_ne_iff.mpr (bcd_month_no_bit7 MO (by omega)))]
      rw [if_pos (hour12_pm_decode H2 hH2lt).2.2.1]
      rw [if_pos (hour12_pm_decode H2 hH2lt).2.2.2.1]
      dsimp only
      rw [(hour12_pm_decode H2 hH2lt).2.2.2.2]
      rw [(bcd_roundtrip S (by omega)).2, (bcd_roundtrip MI (by omega)).2,
          (bcd_roundtrip D (by omega)).2, (bcd_roundtrip MO (by omega)).2,
          (bcd_roundtrip K (by omega)).2]
      norm_cast
    refine ⟨by rw [henc, hdec], by rw [henc, hdec, hH]⟩
  · have hlt : H < 12 := by omega
    have henc : ds3231_encode ex t =
        [bin2bcd S, bin2bcd MI, 64 ||| bin2bcd H, ex.getD 3 0, bin2bcd D, bin2bcd MO,
         bin2bcd K] := by
      simp only [ds3231_encode, DS3231_REG_MONTH, DS3231_REG_HOURS, DS3231_REG_DAY]
      rw [hS, hMI, hH, hD, hMO, hK]
      rw [if_pos hmode]
      rw [if_neg (show ¬((H : Nat) : Int) ≥ 12 from by omega)]
      dsimp only
      rw [hour12_am_mask _ heh heh7 hmode]
      rw [u8_cast H (by omega), and31_id H (by omega)]
      rw [(hour12_am_decode H hlt).1]
      rw [if_neg (show ¬((K : Int) + 100 > 199) from by omega)]
      rw [show ((MO : Int) - 1 + 1) = (MO : Int) from by omega]
      rw [Int.tmod_eq_emod (by omega) (by omega)]
      rw [show ((K : Int) + 100) % 100 = (K : Int) from by omega]
      rw [u8_cast S (by omega), u8_cast MI (by omega), u8_cast D (by omega),
          u8_cast MO (by omega), u8_cast K (by omega)]
      rw [and63_id D (by omega), and31_id MO (by omega), and255_id K (by omega)]
      rw [he5]
      simp only [Nat.zero_or]
      rw [(bcd_roundtrip S (by omega)).1, (bcd_roundtrip MI (by omega)).1,
          (bcd_roundtrip D (by omega)).1, (bcd_roundtrip MO (by omega)).1,
          (bcd_roundtrip K (by omega)).1]
    have g0 : ([bin2bcd S, bin2bcd MI, 64 ||| bin2bcd H, ex.getD 3 0, bin2bcd D,
        bin2bcd MO, bin2bcd K] : List Nat).getD 0 0 = bin2bcd S := rfl
    have g1 : ([bin2bcd S, bin2bcd MI, 64 ||| bin2bcd H, ex.getD 3 0, bin2bcd D,
        bin2bcd MO, bin2bcd K] : List Nat).getD 1 0 = bin2bcd MI := rfl
    have g2 : ([bin2bcd S, bin2bcd MI, 64 ||| bin2bcd H, ex.getD 3 0, bin2bcd D,
        bin2bcd MO, bin2bcd K] : List Nat).getD 2 0 = 64 ||| bin2bcd H := rfl
    have g4 : ([bin2bcd S, bin2bcd MI, 64 ||| bin2bcd H, ex.getD 3 0, bin2bcd D,
        bin2bcd MO, bin2bcd K] : List Nat).getD 4 0 = bin2bcd D := rfl
    have g5 : ([bin2bcd S, bin2bcd MI, 64 ||| bin2bcd H, ex.getD 3 0, bin2bcd D,
        bin2bcd MO, bin2bcd K] : List Nat).getD 5 0 = bin2bcd MO := rfl
    have g6 : ([bin2bcd S, bin2bcd MI, 64 ||| bin2bcd H, ex.getD 3 0, bin2bcd D,
        bin2bcd MO, bin2bcd K] : List Nat).getD 6 0 = bin2bcd K := rfl
    have hdec : ds3231_decode
        [bin2bcd S, bin2bcd MI, 64 ||| bin2bcd H, ex.getD 3 0, bin2bcd D, bin2bcd MO,
         bin2bcd K] d0 =
        (0, { d0 with tm_sec := (S : Int), tm_min := (MI : Int), tm_hour := (H : Int),
                      tm_mday := (D : Int), tm_mon := (MO : Int) - 1,
                      tm_year := (K : Int) + 100 }) := by
      simp only [ds3231_decode, DS3231_REG_SECONDS, DS3231_REG_MINUTES, DS3231_REG_HOURS,
                 DS3231_REG_DATE, DS3231_REG_MONTH, DS3231_REG_YEAR]
      rw [g0, g1, g2, g4, g5, g6]
      rw [if_neg (show ¬(bin2bcd MO &&& 128 ≠ 0) from
            not_ne_iff.mpr (bcd_month_no_bit7 MO (by omega)))]
      rw [if_pos (hour12_am_decode H hlt).2.1]
      rw [if_neg (show ¬(((64 ||| bin2bcd H) &&& 191) &&& 32 ≠ 0) from
            not_ne_iff.mpr (hour12_am_decode H hlt).2.2.1)]
      dsimp only
      rw [(hour12_am_decode H hlt).2.2.2]
      rw [(bcd_roundtrip S (by omega)).2, (bcd_roundtrip MI (by omega)).2,
          (bcd_roundtrip D (by omega)).2, (bcd_roundtrip MO (by omega)).2,
          (bcd_roundtrip K (by omega)).2]
      norm_num
    refine ⟨by rw [henc, hdec], by rw [henc, hdec, hH]⟩

/-- 2024-03-15 12:30:45 in `struct rtc_time` form (a validated candidate). -/
def tMar : RtcTime := ⟨45, 30, 12, 15, 2, 124, 0, 0, 0⟩

/-- C3 counterexample: the claim quantifies over EVERY existing block in
24-hour mode, but the codec keeps bits 5-6 of the existing month byte; with
existing block `[0,0,0,0,0,0x20,0]` (hour-mode bit clear, junk bit 5 in the
month byte) and the valid candidate 2024-03-15 12:30:45, the decoded month
differs from the original. -/
theorem c3_counterexample_junk_bits_in_existing_block :
    ds3231_check_date tMar = 0 ∧ tMar.tm_year ≤ 199 ∧
    (([0, 0, 0, 0, 0, 32, 0] : List Nat).getD 2 0 &&& 64 = 0) ∧
    (ds3231_decode (ds3231_encode [0, 0, 0, 0, 0, 32, 0] tMar) dJunk).2.tm_mon ≠
      tMar.tm_mon := by
  decide

/-- C3 (amended): codec round-trip for existing blocks without junk in the
codec-owned bits.  For every validated candidate with year in [2000,2099]
and every existing 7-byte block whose hours byte has bit 7 clear and whose
month byte has bits 5-6 clear: in 24-hour mode, decode(encode(ex, t))
succeeds and reproduces all six calendar fields of t (the other struct
fields keep the caller's values); in 12-hour mode, decoding still succeeds
and the decoded hour equals t's original 24-hour hour. -/
theorem c3_amended_codec_roundtrip (t : RtcTime) (ex : List Nat) (d0 : RtcTime)
    (hv : ds3231_check_date t = 0) (hy : t.tm_year ≤ 199)
    (heh : ex.getD 2 0 < 256)
    (heh7 : ex.getD 2 0 &&& 128 = 0)
    (he5 : ex.getD 5 0 &&& 96 = 0) :
    (ex.getD 2 0 &&& 64 = 0 →
      ds3231_decode (ds3231_encode ex t) d0 =
        (0, { d0 with tm_sec := t.tm_sec, tm_min := t.tm_min, tm_hour := t.tm_hour,
                      tm_mday := t.tm_mday, tm_mon := t.tm_mon, tm_year := t.tm_year })) ∧
    (ex.getD 2 0 &&& 64 ≠ 0 →
      (ds3231_decode (ds3231_encode ex t) d0).1 = 0 ∧
      (ds3231_decode (ds3231_encode ex t) d0).2.tm_hour = t.tm_hour) :=
  ⟨fun hmode => ds3231_roundtrip_24h t ex d0 hv hy heh heh7 he5 hmode,
   fun hmode => ds3231_roundtrip_12h t ex d0 hv hy heh heh7 he5 hmode⟩

/-- A 12-hour-mode register block (hours byte 0x52 has the mode bit). -/
def regs12h : List Nat := [0x45, 0x30, 0x52, 0x02, 0x15, 0x03, 0x24]

/-- Witness for C3's amended statement: the 24-hour case on `regsR` and the
12-hour case on `regs12h`, both with candidate 2024-03-15 12:30:45. -/
theorem c3_amended_codec_roundtrip_witness :
    (ds3231_check_date tMar = 0 ∧ tMar.tm_year ≤ 199 ∧ regsR.getD 2 0 < 256 ∧
     regsR.getD 2 0 &&& 128 = 0 ∧ regsR.getD 5 0 &&& 96 = 0 ∧ regsR.getD 2 0 &&& 64 = 0 ∧
     ds3231_decode (ds3231_encode regsR tMar) dJunk =
       (0, { dJunk with tm_sec := tMar.tm_sec, tm_min := tMar.tm_min,
                        tm_hour := tMar.tm_hour, tm_mday := tMar.tm_mday,
                        tm_mon := tMar.tm_mon, tm_year := tMar.tm_year })) ∧
    (regs12h.getD 2 0 < 256 ∧ regs12h.getD 2 0 &&& 128 = 0 ∧
     regs12h.getD 5 0 &&& 96 = 0 ∧ regs12h.getD 2 0 &&& 64 ≠ 0 ∧
     (ds3231_decode (ds3231_encode regs12h tMar) dJunk).1 = 0 ∧
     (ds3231_decode (ds3231_encode regs12h tMar) dJunk).2.tm_hour = tMar.tm_hour) :=
  ⟨⟨by decide, by decide, by decide, by decide, by decide, by decide,
    (c3_amended_codec_roundtrip tMar regsR dJunk (by decide) (by decide) (by decide)
      (by decide) (by decide)).1 (by decide)⟩,
   ⟨by decide, by decide, by decide, by decide,
    ((c3_amended_codec_roundtrip tMar regs12h dJunk (by decide) (by decide) (by decide)
      (by decide) (by decide)).2 (by decide)).1,
    ((c3_amended_codec_roundtrip tMar regs12h dJunk (by decide) (by decide) (by decide)
      (by decide) (by decide)).2 (by decide)).2⟩⟩
